import Mathlib

/-!
Verification development for the agent-karate TestRail reconciliation core.

Shallow embedding of:
- `src/agent/state.py` (`TestResult`, the canonical result model),
- `src/agent/karate_parser.py` (`KarateParser.parse_karate_json` and its helpers),
- `src/agent/testrail_sync.py` (`TestRailSync.sync_cases_from_karate`,
  `TestRailSync._find_case_by_automation_id`, `TestRailSync._infer_priority`),
- `src/agent/testrail_runner.py` (`TestRailRunner.submit_results`),
- the registry-facing behaviour of `src/agent/testrail_client.py`
  (`add_case`, `update_case`, `get_cases`, `get_tests`, `add_results_batch`),
modelled as pure Lean functions.  JSON documents are modelled by `KJson`,
Python runtime errors by `PyErr`, and the remote TestRail state by `Registry`.
-/

namespace AgentKarate

/-- Model of a Python/JSON value as consumed by the parser.  Numbers are
modelled as rationals (Python ints/floats; none of the verified properties
depend on floating-point rounding). -/
inductive KJson where
  | null
  | bool (b : Bool)
  | num (q : Rat)
  | str (s : String)
  | arr (xs : List KJson)
  | obj (fields : List (String × KJson))

/-- Python exceptions that the parser code can raise internally.  All of them
are caught by the `except` clauses in `karate_parser.py`. -/
inductive PyErr where
  | typeError
  | attributeError
  | unboundLocalError
  | validationError
deriving DecidableEq

namespace KJson

/-- Association-list lookup, first binding wins (JSON objects have unique
keys; Python `dict` lookup). -/
def assocGet : List (String × KJson) → String → Option KJson
  | [], _ => none
  | (k, v) :: rest, key => if k = key then some v else assocGet rest key

/-- `d.get(key)` on a Python dict (`None` when absent); `none` when the value
is not a dict is handled at each call site (Python would raise there). -/
def kget : KJson → String → Option KJson
  | .obj fields, key => assocGet fields key
  | _, _ => none

/-- `d.get(key, default)` on a Python dict. -/
def kgetD (j : KJson) (key : String) (dflt : KJson) : KJson :=
  (kget j key).getD dflt

/-- `key in d` for a Python dict. -/
def hasKey (j : KJson) (key : String) : Bool :=
  (kget j key).isSome

/-- Python truthiness (`if x:`) of a JSON value. -/
def pyTruthy : KJson → Bool
  | .null => false
  | .bool b => b
  | .num q => q != 0
  | .str s => s ≠ ""
  | .arr xs => !xs.isEmpty
  | .obj fields => !fields.isEmpty

/-- `len(x)`; `none` models the `TypeError` raised on unsized values. -/
def pyLen : KJson → Option Nat
  | .str s => some s.length
  | .arr xs => some xs.length
  | .obj fields => some fields.length
  | _ => none

/-- `for x in v`: lists iterate their elements, strings their characters,
dicts their keys; `none` models the `TypeError` on non-iterables. -/
def pyIterList : KJson → Option (List KJson)
  | .arr xs => some xs
  | .str s => some (s.toList.map fun c => .str (String.mk [c]))
  | .obj fields => some (fields.map fun kv => .str kv.1)
  | _ => none

/-- `v / d` where `d` is a number: defined for Python numbers and bools,
`none` models the `TypeError` on anything else. -/
def pyDivNum (v : KJson) (d : Rat) : Option Rat :=
  match v with
  | .num q => some (q / d)
  | .bool b => some ((if b then (1 : Rat) else 0) / d)
  | _ => none

/-- A value `== "s"` in Python (distinct types compare unequal). -/
def eqStr (v : KJson) (s : String) : Bool :=
  match v with
  | .str t => t = s
  | _ => false

/-- Pydantic validation of a `str` field. -/
def asStr : KJson → Option String
  | .str s => some s
  | _ => none

/-- Pydantic validation of an `Optional[str]` field. -/
def asOptStr : KJson → Option (Option String)
  | .null => some none
  | .str s => some (some s)
  | _ => none

/-- Pydantic validation of a `List[dict]` field. -/
def asDictList : KJson → Option (List KJson)
  | .arr xs => if xs.all fun x => match x with | .obj _ => true | _ => false
               then some xs else none
  | _ => none

end KJson

/-- `TestResult` from `src/agent/state.py`: the canonical in-memory record of
one executed scenario.  `steps` and `examples` hold raw dict payloads
(`List[dict]` in the source), kept here as `KJson` objects. -/
structure TestResult where
  feature : String
  scenario : String
  status : String
  duration : Rat
  error_message : Option String := none
  steps : List KJson := []
  gherkin_steps : List String := []
  background_steps : List String := []
  prerequisites : List String := []
  expected_assertions : List String := []
  examples : List KJson := []
  tags : List String := []
  example_index : Int := -1

/-- Python `needle in haystack` on lists of characters (substring test). -/
def pySubInAux (n : List Char) : List Char → Bool
  | [] => n.isEmpty
  | c :: rest => n.isPrefixOf (c :: rest) || pySubInAux n rest

/-- Python `needle in haystack` for strings (substring containment). -/
def pyStrIn (needle hay : String) : Bool :=
  pySubInAux needle.toList hay.toList

/-- Python `s.lower()`: lowercase every character (identical to
`String.toLower`, stated over the character list so that it evaluates by
kernel reduction). -/
def pyLower (s : String) : String :=
  String.mk (s.toList.map Char.toLower)

/-- Python `x.split(sep)[0] if sep in x else x` for `sep = "."`: the prefix of
the string before its first dot (`testrail_sync.py` line 211,
`testrail_runner.py` line 76). -/
def pySplitDotFirst (s : String) : String :=
  if s.toList.contains '.' then String.mk (s.toList.takeWhile fun c => !(c == '.'))
  else s

namespace KJson

/-- `isinstance(x, dict)`. -/
def isObj : KJson → Bool
  | .obj _ => true
  | _ => false

/-- Python numeric value of a JSON value (`bool` is an `int` subclass);
`none` models the `TypeError` raised by arithmetic on anything else. -/
def pyAsNum : KJson → Option Rat
  | .num q => some q
  | .bool b => some (if b then 1 else 0)
  | _ => none

end KJson

/-! ### `KarateParser` (`src/agent/karate_parser.py`)

Every helper mirrors one static method.  Methods whose body is wrapped in
`try/except` that swallows the exception are total functions returning the
list accumulated before the (caught) error; `_parse_feature_data`, whose
exceptions propagate to `parse_karate_json`, returns `Except PyErr`. -/

/-- Loop of `_extract_gherkin_steps_from_result` (lines 237-258).  A `.strip()`
on a non-string prefix/text raises `AttributeError`, caught by the method:
the steps accumulated so far are returned. -/
def gherkinResultGo : List KJson → List String → List String
  | [], acc => acc
  | sr :: rest, acc =>
    if sr.isObj then
      let step := sr.kgetD "step" (.obj [])
      if step.isObj then
        match (step.kgetD "prefix" (.str "")).asStr, (step.kgetD "text" (.str "")).asStr with
        | some p0, some t0 =>
          let p1 := p0.trim
          let t := t0.trim
          let p := if p1 == "*" then "Given" else p1
          if (p != "") && (t != "") then gherkinResultGo rest (acc ++ [p ++ " " ++ t])
          else gherkinResultGo rest acc
        | _, _ => acc
      else gherkinResultGo rest acc
    else gherkinResultGo rest acc

/-- `_extract_gherkin_steps_from_result(scenario)` (lines 237-258). -/
def extractGherkinStepsFromResult (scenario : KJson) : List String :=
  match (scenario.kgetD "stepResults" (.arr [])).pyIterList with
  | some items => gherkinResultGo items []
  | none => []

/-- Loop of `_extract_expected_assertions_from_result` (lines 260-279). -/
def assertResultGo : List KJson → List String → List String
  | [], acc => acc
  | sr :: rest, acc =>
    if sr.isObj then
      let step := sr.kgetD "step" (.obj [])
      if step.isObj then
        match (step.kgetD "prefix" (.str "")).asStr, (step.kgetD "text" (.str "")).asStr with
        | some p0, some t0 =>
          let p := p0.trim
          let t := t0.trim
          if (["Then", "And", "*"].any fun kw => pyStrIn kw p) && (t != "") &&
             (["status", "match", "=="].any fun x => pyStrIn x t) then
            assertResultGo rest (acc ++ [p ++ " " ++ t])
          else assertResultGo rest acc
        | _, _ => acc
      else assertResultGo rest acc
    else assertResultGo rest acc

/-- `_extract_expected_assertions_from_result(scenario)` (lines 260-279). -/
def extractExpectedAssertionsFromResult (scenario : KJson) : List String :=
  match (scenario.kgetD "stepResults" (.arr [])).pyIterList with
  | some items => assertResultGo items []
  | none => []

/-- First loop of `_extract_background_steps` (lines 404-415): pick the
`stepResults` entries flagged `background`; the Bool is true when an
`AttributeError` was raised (and caught at the method level). -/
def bgResultGo : List KJson → List String → List String × Bool
  | [], acc => (acc, false)
  | sr :: rest, acc =>
    if sr.isObj then
      let stepInfo := sr.kgetD "step" (.obj [])
      if stepInfo.isObj && (stepInfo.kgetD "background" .null).pyTruthy then
        match (stepInfo.kgetD "prefix" (.str "")).asStr, (stepInfo.kgetD "text" (.str "")).asStr with
        | some p0, some t0 =>
          let p := p0.trim
          let t := t0.trim
          if (p != "") && (t != "") then bgResultGo rest (acc ++ [p ++ " " ++ t])
          else bgResultGo rest acc
        | _, _ => (acc, true)
      else bgResultGo rest acc
    else bgResultGo rest acc

/-- Fallback loop of `_extract_background_steps` (lines 423-433): read the
`background.steps` object; a caught error returns the accumulated list. -/
def bgFallbackGo : List KJson → List String → List String
  | [], acc => acc
  | st :: rest, acc =>
    if st.isObj then
      match (st.kgetD "keyword" (.str "")).asStr, (st.kgetD "text" (.str "")).asStr with
      | some k0, some t0 =>
        let k := k0.trim
        let t := t0.trim
        if (k != "") && (t != "") then bgFallbackGo rest (acc ++ [k ++ " " ++ t])
        else bgFallbackGo rest acc
      | _, _ => acc
    else bgFallbackGo rest acc

/-- `_extract_background_steps(scenario)` (lines 398-438).  Called with a
scenario dict in the detailed format and with a feature dict in the
feature/elements format. -/
def extractBackgroundSteps (scenario : KJson) : List String :=
  let phase1 :=
    match scenario.kgetD "stepResults" (.arr []) with
    | .arr items => bgResultGo items []
    | _ => ([], false)
  match phase1 with
  | (acc, true) => acc
  | (acc, false) =>
    if acc.isEmpty then
      let background := (scenario.kget "background").getD .null
      if background.pyTruthy && background.isObj then
        match background.kgetD "steps" (.arr []) with
        | .arr bsteps => bgFallbackGo bsteps []
        | _ => []
      else []
    else acc

/-- Loop of `_extract_gherkin_steps` (feature/elements format, lines
382-396). -/
def gherkinFeatGo : List KJson → List String → List String
  | [], acc => acc
  | st :: rest, acc =>
    if st.isObj then
      match (st.kgetD "keyword" (.str "")).asStr, (st.kgetD "text" (.str "")).asStr with
      | some k0, some t0 =>
        let k := k0.trim
        let t := t0.trim
        if (k != "") && (t != "") then gherkinFeatGo rest (acc ++ [k ++ " " ++ t])
        else gherkinFeatGo rest acc
      | _, _ => acc
    else gherkinFeatGo rest acc

/-- `_extract_gherkin_steps(feature, scenario)` (lines 382-396); the feature
argument is unused in the source body as well. -/
def extractGherkinSteps (_feature scenario : KJson) : List String :=
  match (scenario.kgetD "steps" (.arr [])).pyIterList with
  | some items => gherkinFeatGo items []
  | none => []

/-- Loop of `_extract_prerequisites` (lines 440-459). -/
def prereqGo : List KJson → List String → List String
  | [], acc => acc
  | st :: rest, acc =>
    if st.isObj then
      match (st.kgetD "text" (.str "")).asStr with
      | some t0 =>
        let t := t0.trim
        if t.startsWith "Prerequisito:" || t.startsWith "Precondición:" then
          let pr := ((t.replace "Prerequisito:" "").replace "Precondición:" "").trim
          if pr != "" then prereqGo rest (acc ++ [pr]) else prereqGo rest acc
        else prereqGo rest acc
      | none => acc
    else prereqGo rest acc

/-- `_extract_prerequisites(feature)` (lines 440-459). -/
def extractPrerequisites (feature : KJson) : List String :=
  let background := (feature.kget "background").getD .null
  if background.pyTruthy && background.isObj then
    match (background.kgetD "steps" (.arr [])).pyIterList with
    | some items => prereqGo items []
    | none => []
  else []

/-- Loop of `_extract_expected_assertions` (feature/elements format, lines
461-479). -/
def assertFeatGo : List KJson → List String → List String
  | [], acc => acc
  | st :: rest, acc =>
    if st.isObj then
      match (st.kgetD "keyword" (.str "")).asStr, (st.kgetD "text" (.str "")).asStr with
      | some k0, some t0 =>
        let k := k0.trim
        let t := t0.trim
        if (["Then", "And"].any fun kw => pyStrIn kw k) && (t != "") &&
           (["status", "match", "=="].any fun x => pyStrIn x t) then
          assertFeatGo rest (acc ++ [k ++ " " ++ t])
        else assertFeatGo rest acc
      | _, _ => acc
    else assertFeatGo rest acc

/-- `_extract_expected_assertions(scenario)` (lines 461-479). -/
def extractExpectedAssertions (scenario : KJson) : List String :=
  match (scenario.kgetD "steps" (.arr [])).pyIterList with
  | some items => assertFeatGo items []
  | none => []

/-- Loop of `_extract_examples` (lines 481-497): collects the raw `cells`
values of each dict row. -/
def examplesGo : List KJson → List KJson → List KJson
  | [], acc => acc
  | b :: rest, acc =>
    if b.isObj then
      match (b.kgetD "rows" (.arr [])).pyIterList with
      | some rows =>
        examplesGo rest
          (acc ++ rows.filterMap fun row =>
            if row.isObj then some (row.kgetD "cells" (.arr [])) else none)
      | none => acc
    else examplesGo rest acc

/-- `_extract_examples(feature, scenario)` (lines 481-497); the feature
argument is unused in the source body as well. -/
def extractExamples (_feature scenario : KJson) : List KJson :=
  match (scenario.kgetD "examples" (.arr [])).pyIterList with
  | some items => examplesGo items []
  | none => []

/-- `_parse_scenario_result(scenario, feature_name)` (lines 189-235): parse
one element of a `scenarioResults` array.  Any internal exception (attribute
access on a non-dict, `TypeError` in the division, pydantic validation of
the `TestResult` fields) is caught by the method and yields `none`. -/
def parseScenarioResult (featureName : KJson) (scenario : KJson) : Option TestResult :=
  if scenario.isObj then
    let scenarioName := scenario.kgetD "name" (.str "Unknown Scenario")
    let isFailed := (scenario.kgetD "failed" (.bool false)).pyTruthy
    let status := if isFailed then "failed" else "passed"
    match (scenario.kgetD "durationMillis" (.num 0)).pyDivNum 1000 with
    | none => none
    | some duration =>
      let stepsData := scenario.kgetD "stepResults" (.arr [])
      let errVal : Option KJson :=
        if isFailed then some (scenario.kgetD "error" (.str "Test failed")) else none
      let gherkin := extractGherkinStepsFromResult scenario
      let background := extractBackgroundSteps scenario
      let assertions := extractExpectedAssertionsFromResult scenario
      match featureName.asStr, scenarioName.asStr, stepsData.asDictList,
            (match errVal with | none => some none | some v => v.asOptStr) with
      | some f, some sn, some sd, some em =>
        some { feature := f, scenario := sn, status := status, duration := duration,
               error_message := em, steps := sd, gherkin_steps := gherkin,
               background_steps := background, prerequisites := [],
               expected_assertions := assertions, examples := [], tags := [],
               example_index := -1 }
      | _, _, _, _ => none
  else none

/-- Count scenario steps whose `result.status` equals `target`
(`_parse_feature_data` line 309-310); accessing `.get` on a non-dict
`result` value raises `AttributeError`. -/
def countResultStatus : List KJson → String → Except PyErr Nat
  | [], _ => .ok 0
  | s :: rest, target =>
    if s.isObj then
      let resultV := s.kgetD "result" (.obj [])
      if resultV.isObj then do
        let n ← countResultStatus rest target
        pure (n + (if ((resultV.kget "status").getD .null).eqStr target then 1 else 0))
      else .error .attributeError
    else countResultStatus rest target

/-- Sum of per-step `result.duration` values (line 319-323); a non-numeric
duration raises `TypeError` in the `sum`. -/
def sumStepDurations : List KJson → Except PyErr Rat
  | [] => .ok 0
  | s :: rest =>
    if s.isObj && s.hasKey "result" then
      let resultV := s.kgetD "result" (.obj [])
      if resultV.isObj then
        match (resultV.kgetD "duration" (.num 0)).pyAsNum with
        | some d => do
          let total ← sumStepDurations rest
          pure (d + total)
        | none => .error .typeError
      else .error .attributeError
    else sumStepDurations rest

/-- Build one `step_info` dict (lines 326-345); `none` when the step is
skipped by the `isinstance` guard. -/
def buildStepInfo (step : KJson) : Except PyErr (Option KJson) :=
  if step.isObj then
    let resultV := step.kgetD "result" (.obj [])
    let docData : KJson :=
      if step.hasKey "doc_string" then
        let ds := step.kgetD "doc_string" .null
        if ds.isObj then ds.kgetD "value" .null else .null
      else .null
    if resultV.isObj then
      match (resultV.kgetD "duration" (.num 0)).pyAsNum with
      | some d =>
        .ok (some (.obj
          [("keyword", step.kgetD "keyword" (.str "")),
           ("text", step.kgetD "name" (.str "")),
           ("status", resultV.kgetD "status" (.str "unknown")),
           ("duration_ms", .num (d / 1000000)),
           ("error", resultV.kgetD "error_message" .null),
           ("data", docData)]))
      | none => .error .typeError
    else .error .attributeError
  else .ok none

/-- The `steps_data` loop of `_parse_feature_data` (lines 326-345). -/
def buildStepsData : List KJson → Except PyErr (List KJson)
  | [] => .ok []
  | s :: rest => do
    let info ← buildStepInfo s
    let tail ← buildStepsData rest
    pure ((match info with | some j => [j] | none => []) ++ tail)

/-- The error-message scan of `_parse_feature_data` (lines 349-357): first
step whose `result.status` is `failed`. -/
def findErrorMessage : List KJson → Except PyErr (Option KJson)
  | [] => .ok none
  | s :: rest =>
    if s.isObj then
      let resultV := s.kgetD "result" (.obj [])
      if resultV.isObj then
        if ((resultV.kget "status").getD .null).eqStr "failed" then
          .ok (some (resultV.kgetD "error_message" (.str "Unknown error")))
        else findErrorMessage rest
      else .error .attributeError
    else findErrorMessage rest

/-- Scenario loop of `_parse_feature_data` (lines 295-378).  `stepsVar` models
the Python local variable `steps`: it is assigned only inside the
`if not scenario_status:` branch (line 307), so when a scenario carries an
explicit truthy `status` and no earlier iteration assigned `steps`, the
`isinstance(steps, list)` test at line 318 raises `UnboundLocalError`. -/
def featureGo (feature featureName : KJson) :
    List KJson → List TestResult → Option KJson → Except PyErr (List TestResult)
  | [], acc, _ => .ok acc
  | scenario :: rest, acc, stepsVar =>
    if scenario.isObj then
      let ty := (scenario.kget "type").getD .null
      if ty.eqStr "scenario" || ty.eqStr "Scenario" then
        let scenarioName := scenario.kgetD "name" (.str "Unknown Scenario")
        let statusRaw := (scenario.kget "status").getD .null
        let derived : Except PyErr (KJson × Option KJson) :=
          if !statusRaw.pyTruthy then
            -- lines 306-313: steps is assigned, status derived from step results
            let stepsV := scenario.kgetD "steps" (.arr [])
            match stepsV with
            | .arr items =>
              -- passed_steps (line 309) is computed but unused; it scans the
              -- same values as failed_steps and raises under the same inputs
              match countResultStatus items "failed" with
              | .ok failedSteps =>
                .ok (.str (if failedSteps == 0 then "passed" else "failed"), some stepsV)
              | .error e => .error e
            | _ => .ok (.str "unknown", some stepsV)
          else .ok (statusRaw, stepsVar)
        match derived with
        | .error e => .error e
        | .ok (statusV, stepsVar') =>
          let status := if statusV.eqStr "passed" then "passed" else "failed"
          match stepsVar' with
          | none => .error .unboundLocalError  -- line 318: steps referenced before assignment
          | some stepsV =>
            let durSteps : Except PyErr (Rat × List KJson) :=
              match stepsV with
              | .arr items => do
                let total ← sumStepDurations items
                let sd ← buildStepsData items
                pure (total / 1000000000, sd)
              | _ => .ok (0, [])
            match durSteps with
            | .error e => .error e
            | .ok (duration, stepsData) =>
              let errScanV : Except PyErr (Option KJson) :=
                if status == "failed" then
                  match stepsV with
                  | .arr items => findErrorMessage items
                  | _ => .ok none
                else .ok none
              match errScanV with
              | .error e => .error e
              | .ok errMsgV =>
                let gherkin := extractGherkinSteps feature scenario
                let background := extractBackgroundSteps feature
                let prereqs := extractPrerequisites feature
                let assertions := extractExpectedAssertions scenario
                let exampleRows := extractExamples feature scenario
                -- pydantic validation of the TestResult constructor (lines 366-378)
                match featureName.asStr, scenarioName.asStr,
                      (match errMsgV with | none => some none | some v => v.asOptStr),
                      (if exampleRows.all KJson.isObj then some exampleRows else none) with
                | some f, some sn, some em, some exs =>
                  featureGo feature featureName rest
                    (acc ++ [{ feature := f, scenario := sn, status := status,
                               duration := duration, error_message := em,
                               steps := stepsData, gherkin_steps := gherkin,
                               background_steps := background, prerequisites := prereqs,
                               expected_assertions := assertions, examples := exs,
                               tags := [], example_index := -1 }])
                    (some stepsV)
                | _, _, _, _ => .error .validationError
      else featureGo feature featureName rest acc stepsVar
    else featureGo feature featureName rest acc stepsVar

/-- `_parse_feature_data(feature, source)` (lines 281-380).  Exceptions
propagate to the caller (`parse_karate_json`), discarding this feature's
partially built result list. -/
def parseFeatureData (feature : KJson) : Except PyErr (List TestResult) :=
  if feature.isObj then
    let featureName := feature.kgetD "name" (.str "Unknown Feature")
    let elements :=
      match feature.kgetD "elements" (.arr []) with
      | .arr xs => xs
      | _ => []  -- line 291-293: non-list elements is replaced by []
    featureGo feature featureName elements [] none
  else .ok []

/-- The detailed-format branch of `parse_karate_json` (lines 115-128): parse
each element of `scenarioResults` with the document-level feature name. -/
def detailedResults (doc : KJson) : List TestResult :=
  match doc.kgetD "scenarioResults" (.arr []) with
  | .arr srs => srs.filterMap (parseScenarioResult (doc.kgetD "name" (.str "Unknown Feature")))
  | _ => []

/-- The `features` local of `parse_karate_json` (lines 131-138). -/
def featuresValue (doc : KJson) : KJson :=
  match doc with
  | .arr _ => doc
  | .obj _ =>
    if doc.hasKey "elements" then .arr [doc]
    else if doc.hasKey "features" then doc.kgetD "features" (.arr [])
    else .arr []
  | _ => .arr []

/-- The feature loop of `parse_karate_json` (lines 141-143): extend the
result list per feature; an exception from `_parse_feature_data` aborts the
loop with the results of the features completed so far. -/
def featuresLoop : List KJson → List TestResult → List TestResult × Option PyErr
  | [], acc => (acc, none)
  | f :: rest, acc =>
    match parseFeatureData f with
    | .ok l => featuresLoop rest (acc ++ l)
    | .error e => (acc, some e)

/-- The summary loop of `parse_karate_json` (lines 155-172): one synthesized
`TestResult` per feature summary entry, with `feature == scenario`. -/
def summaryGo : List KJson → List TestResult → List TestResult × Option PyErr
  | [], acc => (acc, none)
  | item :: rest, acc =>
    if item.isObj then
      let name := item.kgetD "name" (.str "Unknown")
      let status := if (item.kgetD "failed" (.bool false)).pyTruthy then "failed" else "passed"
      match (item.kgetD "durationMillis" (.num 0)).pyDivNum 1000 with
      | some duration =>
        match name.asStr with
        | some n =>
          summaryGo rest (acc ++ [{ feature := n, scenario := n, status := status,
                                    duration := duration }])
        | none => (acc, some .validationError)
      | none => (acc, some .typeError)
    else (acc, some .attributeError)

/-- The `featureSummary` fallback branch of `parse_karate_json`
(lines 150-176), including the `len()` call at line 153 that raises on
unsized values. -/
def runSummary (doc : KJson) : List TestResult × Option PyErr :=
  if doc.isObj && doc.hasKey "featureSummary" then
    let fs := doc.kgetD "featureSummary" (.arr [])
    match fs.pyLen with
    | none => ([], some .typeError)
    | some _ =>
      match fs.pyIterList with
      | none => ([], some .typeError)
      | some items => summaryGo items []
  else ([], none)

/-- `KarateParser.parse_karate_json` body (lines 100-187), with the caught
exception (if any) made explicit: the returned list is exactly what the
Python function returns (the `except` clauses at lines 178-185 return the
accumulated `results`), and the second component records the caught error. -/
def parseAttempt (doc : KJson) : List TestResult × Option PyErr :=
  if !doc.pyTruthy then ([], none)  -- line 110: `if not data: return results`
  else
    let detailed :=
      if doc.isObj && doc.hasKey "scenarioResults" then detailedResults doc else []
    if !detailed.isEmpty then (detailed, none)  -- line 127: `if results: return results`
    else
      let fv := featuresValue doc
      if fv.pyTruthy then
        match fv.pyIterList with
        | none => ([], some .typeError)
        | some fs =>
          match featuresLoop fs [] with
          | (acc, some e) => (acc, some e)
          | (acc, none) =>
            if !acc.isEmpty then (acc, none)  -- line 146
            else runSummary doc
      else runSummary doc

/-- `KarateParser.parse_karate_json(file_path)` as a function of the loaded
JSON document: the list of `TestResult`s actually returned.  All exceptions
are caught inside the method, so this is total. -/
def parseKarateJson (doc : KJson) : List TestResult :=
  (parseAttempt doc).1

/-- The "unrecognized top-level shape" of C5: no `scenarioResults`, no
feature/elements list, no `featureSummary`. -/
def unrecognizedShape (doc : KJson) : Bool :=
  match doc with
  | .arr _ => false
  | .obj _ =>
    !(doc.hasKey "scenarioResults" || doc.hasKey "elements" ||
      doc.hasKey "features" || doc.hasKey "featureSummary")
  | _ => true

/-! ### `TestRailSync` (`src/agent/testrail_sync.py`)

The remote TestRail state visible through `get_cases` / `add_case` /
`update_case` is modelled by `Registry`; the success or failure of each
mutating call (`testrail_client.py` returns `None` on any HTTP error) by a
`ClientBehavior` oracle. -/

/-- One remote case as seen by the reconciliation code: its id and the
`custom_automation_id` custom field used as the idempotency key.  The other
case fields (title, description, priority, ...) are overwritten blindly and
never read back by the sync logic. -/
structure RegCase where
  id : Nat
  custom_automation_id : String

/-- The remote registry: the cases of the configured project/suite plus the
server-side id counter for newly created cases. -/
structure Registry where
  cases : List RegCase
  nextId : Nat

/-- A valid remote registry: TestRail case ids are unique and new ids are
fresh (the server never reuses an id). -/
def WellFormed (reg : Registry) : Prop :=
  (reg.cases.map RegCase.id).Nodup ∧ ∀ c ∈ reg.cases, c.id < reg.nextId

/-- Which mutating client calls succeed: `add_case` keyed by the payload's
automation id, `update_case` keyed by the case id.  `testrail_client.py`
returns `None` (falsy) from either call on any request error. -/
structure ClientBehavior where
  addCaseOk : String → Bool
  updateCaseOk : Nat → Bool

/-- The client behaviour in which every registry call succeeds. -/
def idealClient : ClientBehavior :=
  { addCaseOk := fun _ => true, updateCaseOk := fun _ => true }

/-- Case payload (`_build_case_data`, lines 326-368), restricted to the
fields the registry model interprets; the `description` /
`custom_preconds` / `custom_steps` / `custom_expected` / `custom_feature` /
`custom_status_actual` / `refs` entries are formatted text blobs that are
stored but never read back by the sync logic. -/
structure CaseData where
  custom_automation_id : Option String := none
  title : Option String := none
  type_id : Option Nat := none
  priority_id : Option Nat := none
  assigned_to_id : Option Nat := none

/-- Sync-instance configuration resolved in `TestRailSync.__init__` /
`_get_assigned_user_id`: the id of the `Automated` case type (if found) and
the assignee resolved from config/env (if any); `none` models the falsy
`None`. -/
structure SyncConfig where
  automatedTypeId : Option Nat := none
  assignedUserId : Option Nat := none

/-- `TestRailSync._infer_priority(result)` (lines 667-691): keyword
classifier over the concatenation of the lowercased scenario and feature
text; 5=Critical, 4=High, 2=Low, 3=Medium. -/
def inferPriority (result : TestResult) : Nat :=
  let text := pyLower result.scenario ++ pyLower result.feature
  if ["critical", "smoke", "p0", "blocker", "security"].any (fun x => pyStrIn x text) then 5
  else if ["important", "main", "core", "p1", "auth"].any (fun x => pyStrIn x text) then 4
  else if ["edge", "negative", "error", "p3", "optional"].any (fun x => pyStrIn x text) then 2
  else 3

/-- `_build_case_data(result, automation_id, title)` (lines 326-368),
restricted to the interpreted fields. -/
def buildCaseData (cfg : SyncConfig) (result : TestResult) (automationId title : String) :
    CaseData :=
  { title := some title,
    type_id := cfg.automatedTypeId,
    custom_automation_id := some automationId,
    priority_id := some (inferPriority result),
    assigned_to_id := cfg.assignedUserId }

/-- The `update_data` payload sent right after a successful `add_case`
(lines 231-238).  `case_data` never contains an `is_automated` key, so only
`type_id` and `assigned_to_id` can appear; note `custom_automation_id` is
absent. -/
def updateFieldsData (cfg : SyncConfig) : CaseData :=
  { type_id := cfg.automatedTypeId, assigned_to_id := cfg.assignedUserId }

/-- `if update_data:` (line 240): the follow-up update is issued only when
the dict is non-empty. -/
def updateFieldsNonempty (cfg : SyncConfig) : Bool :=
  cfg.automatedTypeId.isSome || cfg.assignedUserId.isSome

/-- `TestRailClient.get_cases` as seen by the sync logic. -/
def getCases (reg : Registry) : List RegCase := reg.cases

/-- `TestRailSync._find_case_by_automation_id(automation_id)`
(lines 256-266): linear scan of `get_cases` for an exact
`custom_automation_id` match, first match wins. -/
def findCaseByAutomationId (reg : Registry) (automationId : String) : Option RegCase :=
  (getCases reg).find? fun c => c.custom_automation_id == automationId

/-- `TestRailClient.add_case(section_id, case_data)` (client lines 145-163):
on success the server stores the payload's automation id under a fresh case
id and returns the created case; on failure (`None`) nothing is created. -/
def addCase (b : ClientBehavior) (reg : Registry) (cd : CaseData) : Registry × Option Nat :=
  let aid := cd.custom_automation_id.getD ""
  if b.addCaseOk aid then
    ({ cases := reg.cases ++ [{ id := reg.nextId, custom_automation_id := aid }],
       nextId := reg.nextId + 1 }, some reg.nextId)
  else (reg, none)

/-- `TestRailClient.update_case(case_id, case_data)` (client lines 165-179):
on success the stored automation id of the matching case is overwritten when
the payload carries one; on failure nothing changes. -/
def updateCase (b : ClientBehavior) (reg : Registry) (caseId : Nat) (cd : CaseData) :
    Registry × Bool :=
  if b.updateCaseOk caseId then
    ({ reg with
       cases := reg.cases.map fun c =>
         if c.id == caseId then
           { c with custom_automation_id := cd.custom_automation_id.getD c.custom_automation_id }
         else c }, true)
  else (reg, false)

/-- Python dict assignment `case_map[automation_id] = case_id`. -/
def dictSet (m : String → Option Nat) (k : String) (v : Nat) : String → Option Nat :=
  fun x => if x = k then some v else m x

/-- The automation id computed by `sync_cases_from_karate` (lines 206-213):
the bare feature in summary mode, otherwise the feature joined with the
scenario name cleaned of its first-dot suffix. -/
def syncAutomationId (result : TestResult) : String :=
  if result.feature == result.scenario then result.feature
  else result.feature ++ "." ++ pySplitDotFirst result.scenario

/-- The case title computed alongside `syncAutomationId` (lines 206-213). -/
def syncTitle (result : TestResult) : String :=
  if result.feature == result.scenario then result.feature
  else pySplitDotFirst result.scenario

/-- `if section_id:` — the section id resolved from `sections[0]["id"]` is
truthy (line 224); with no sections it is `None` (line 200). -/
def pyOptIdTruthy : Option Nat → Bool
  | some n => n != 0
  | none => false

/-- One iteration of the `for result in test_results:` loop of
`sync_cases_from_karate` (lines 205-246), threading the registry state and
the `case_map` dict. -/
def syncStep (b : ClientBehavior) (cfg : SyncConfig) (sectionId : Option Nat)
    (st : Registry × (String → Option Nat)) (result : TestResult) :
    Registry × (String → Option Nat) :=
  let (reg, caseMap) := st
  let automationId := syncAutomationId result
  let caseData := buildCaseData cfg result automationId (syncTitle result)
  match findCaseByAutomationId reg automationId with
  | some existing =>
    let (reg', updated) := updateCase b reg existing.id caseData
    if updated then (reg', dictSet caseMap automationId existing.id)
    else (reg', caseMap)
  | none =>
    if pyOptIdTruthy sectionId then
      match addCase b reg caseData with
      | (reg', some caseId) =>
        let reg'' :=
          if updateFieldsNonempty cfg then (updateCase b reg' caseId (updateFieldsData cfg)).1
          else reg'
        (reg'', dictSet caseMap automationId caseId)
      | (reg', none) => (reg', caseMap)
    else (reg, caseMap)

/-- `TestRailSync.sync_cases_from_karate(test_results)` (lines 187-248):
fold the per-result reconciliation over the input list, starting from an
empty `case_map`; `sections` holds the ids returned by `get_sections`
(cached for the lifetime of the sync instance, so identical across
successive calls). -/
def syncCasesFromKarate (b : ClientBehavior) (cfg : SyncConfig) (sections : List Nat)
    (reg : Registry) (testResults : List TestResult) :
    Registry × (String → Option Nat) :=
  testResults.foldl (syncStep b cfg sections.head?) (reg, fun _ => none)

/-! ### `TestRailRunner` (`src/agent/testrail_runner.py`) -/

/-- One entry of `get_tests(run_id)`: the run-scoped test slot id and the
case it is bound to. -/
structure RunTest where
  id : Nat
  case_id : Nat

/-- The `case_id → test_id` dict built in `submit_results` (lines 63-65);
later entries overwrite earlier ones. -/
def buildTestIdMap (testsInRun : List RunTest) : Nat → Option Nat :=
  testsInRun.foldl (fun m t => fun c => if c = t.case_id then some t.id else m c)
    (fun _ => none)

/-- The automation id recomputed by `submit_results` (lines 70-77), matching
the sync logic. -/
def runnerAutomationId (result : TestResult) : String :=
  if result.feature == result.scenario then result.feature
  else result.feature ++ "." ++ pySplitDotFirst result.scenario

/-- The runner's status translation (`submit_results` lines 90-96):
`passed → 1`, `failed → 5`, anything else (skipped, undefined, ...) → `3`.
The spec names this table `statusToRegistryCode`. -/
def statusToRegistryCode (status : String) : Nat :=
  if status = "passed" then 1
  else if status = "failed" then 5
  else 3

/-- One entry of the batch payload (`submit_results` lines 98-104). -/
structure ResultPayload where
  test_id : Nat
  status_id : Nat
  comment : String

/-- Python `a or b` for an optional string (line 101): falls back when the
value is `None` or empty. -/
def pyOrStr (o : Option String) (dflt : String) : String :=
  match o with
  | some s => if s = "" then dflt else s
  | none => dflt

/-- The payload-building loop of `submit_results` (lines 69-104): a result
whose automation id has no truthy `case_id` in the map, or whose case has no
truthy run-scoped `test_id`, is skipped with a warning and contributes
nothing. -/
def buildResultsPayload (testIdMap : Nat → Option Nat) (caseIdMap : String → Option Nat) :
    List TestResult → List ResultPayload
  | [] => []
  | result :: rest =>
    let automationId := runnerAutomationId result
    match caseIdMap automationId with
    | some caseId =>
      if caseId != 0 then
        match testIdMap caseId with
        | some testId =>
          if testId != 0 then
            { test_id := testId, status_id := statusToRegistryCode result.status,
              comment := pyOrStr result.error_message ("Test " ++ result.status) } ::
              buildResultsPayload testIdMap caseIdMap rest
          else buildResultsPayload testIdMap caseIdMap rest
        | none => buildResultsPayload testIdMap caseIdMap rest
      else buildResultsPayload testIdMap caseIdMap rest
    | none => buildResultsPayload testIdMap caseIdMap rest

/-- `TestRailRunner.submit_results(run_id, test_results, case_id_map)`
(lines 43-118): build the batch payload and, when it is non-empty, issue the
single `add_results` call whose outcome is `batchOk`
(`TestRailClient.add_results_batch`, client lines 292-310, returns a Bool);
an empty payload returns `False` without any batch call. -/
def submitResults (testsInRun : List RunTest) (testResults : List TestResult)
    (caseIdMap : String → Option Nat) (batchOk : Bool) : Bool :=
  let testIdMap := buildTestIdMap testsInRun
  let payload := buildResultsPayload testIdMap caseIdMap testResults
  if !payload.isEmpty then
    if batchOk then true else false
  else false

/-! ### Concrete sample inputs used by counterexamples and witnesses -/

/-- A result whose scenario name contains a dot (a parameterization suffix). -/
def resultDottedScenario : TestResult :=
  { feature := "Posts", scenario := "Get by id.v2", status := "passed", duration := 0 }

/-- A document carrying both an (empty) `scenarioResults` array and a
`featureSummary` block. -/
def docEmptyDetailedWithSummary : KJson :=
  .obj [("scenarioResults", .arr []),
        ("featureSummary", .arr [.obj [("name", .str "Posts"), ("failed", .bool false),
                                       ("durationMillis", .num 100)]])]

/-- A document carrying a non-empty `scenarioResults` array and a
`featureSummary` block. -/
def docDetailedWithSummary : KJson :=
  .obj [("name", .str "Auth"),
        ("scenarioResults", .arr [.obj [("name", .str "Login ok"), ("failed", .bool false),
                                        ("durationMillis", .num 250)]]),
        ("featureSummary", .arr [.obj [("name", .str "Auth"), ("failed", .bool false)]])]

/-- A feature/elements document whose first scenario carries an explicit
`status` value (here `skipped`). -/
def docExplicitStatus : KJson :=
  .obj [("elements", .arr [.obj [("type", .str "scenario"), ("name", .str "Get posts"),
                                 ("status", .str "skipped")]])]

/-- A document with an unrecognized top-level shape. -/
def docUnknownShape : KJson := .obj [("foo", .num 1)]

/-- Client behaviour in which creating a case for one specific automation id
fails (the HTTP call errors) and everything else succeeds. -/
def failAddFor (badId : String) : ClientBehavior :=
  { addCaseOk := fun a => a != badId, updateCaseOk := fun _ => true }

/-- Summary-mode results (feature = scenario) with three distinct ids. -/
def resultA : TestResult := { feature := "A", scenario := "A", status := "passed", duration := 0 }

/-- Second summary-mode result. -/
def resultB : TestResult := { feature := "B", scenario := "B", status := "failed", duration := 0 }

/-- Third summary-mode result. -/
def resultC : TestResult := { feature := "C", scenario := "C", status := "passed", duration := 0 }

/-- A result that resolves against `sampleRunTests` / `sampleCaseIdMap`. -/
def resultResolved : TestResult :=
  { feature := "F", scenario := "S", status := "passed", duration := 0 }

/-- A result with no entry in `sampleCaseIdMap`. -/
def resultUnresolved : TestResult :=
  { feature := "G", scenario := "H", status := "failed", duration := 0 }

/-- One run-scoped test slot binding case 100 to test 10. -/
def sampleRunTests : List RunTest := [{ id := 10, case_id := 100 }]

/-- A case-id map resolving only `F.S`. -/
def sampleCaseIdMap : String → Option Nat :=
  fun a => if a = "F.S" then some 100 else none

/-- A result whose scenario text contains the `smoke` keyword. -/
def resultSmoke : TestResult :=
  { feature := "Main page", scenario := "smoke test", status := "passed", duration := 0 }

/-! ### Helper lemmas -/

theorem pySplitDotFirst_eq_takeWhile (s : String) :
    pySplitDotFirst s = String.mk (s.toList.takeWhile fun c => c ≠ '.') := by
  have hfun : (fun c : Char => !(c == '.')) = (fun c : Char => decide (c ≠ '.')) := by
    funext c
    by_cases hc : c = '.' <;> simp [hc]
  unfold pySplitDotFirst
  by_cases h : s.toList.contains '.' = true
  · simp only [h, if_true, hfun]
  · have hb : s.toList.contains '.' = false := by
      cases hc : s.toList.contains '.'
      · rfl
      · exact absurd hc h
    have hmem : '.' ∉ s.toList := by simpa using hb
    rw [hb]
    simp only [Bool.false_eq_true, if_false]
    rw [List.takeWhile_eq_self_iff.mpr]
    · rfl
    · intro c hc
      simp only [decide_eq_true_eq]
      intro he
      exact hmem (he ▸ hc)

theorem updateCase_no_aid (b : ClientBehavior) (reg : Registry) (caseId : Nat)
    (cd : CaseData) (h : cd.custom_automation_id = none) :
    (updateCase b reg caseId cd).1 = reg := by
  unfold updateCase
  cases hb : b.updateCaseOk caseId with
  | false => rfl
  | true =>
    simp only [hb, if_true, h, Option.getD_none]
    have hfun : (fun c : RegCase =>
        if c.id == caseId then { c with custom_automation_id := c.custom_automation_id } else c) =
        fun c => c := by
      funext c
      cases c with
      | mk i a => by_cases hc : (i == caseId) = true <;> simp [hc]
    rw [hfun, List.map_id']

theorem updateCase_found (b : ClientBehavior) (reg : Registry) (c : RegCase)
    (automationId : String) (cd : CaseData)
    (hfind : findCaseByAutomationId reg automationId = some c)
    (hcd : cd.custom_automation_id = some automationId)
    (hnd : (reg.cases.map RegCase.id).Nodup) (hok : b.updateCaseOk c.id = true) :
    updateCase b reg c.id cd = (reg, true) := by
  have hfind' : reg.cases.find? (fun x => x.custom_automation_id == automationId) = some c :=
    hfind
  have hmem : c ∈ reg.cases := List.mem_of_find?_eq_some hfind'
  have hbeq := List.find?_some hfind'
  have haid : c.custom_automation_id = automationId := eq_of_beq hbeq
  have hcases : (reg.cases.map fun x =>
      if x.id == c.id then
        { x with custom_automation_id := cd.custom_automation_id.getD x.custom_automation_id }
      else x) = reg.cases := by
    have hfun : ∀ x ∈ reg.cases,
        (if x.id == c.id then
          { x with custom_automation_id := cd.custom_automation_id.getD x.custom_automation_id }
        else x) = x := by
      intro x hx
      by_cases hxc : (x.id == c.id) = true
      · have hxe : x = c := List.inj_on_of_nodup_map hnd hx hmem (eq_of_beq hxc)
        subst hxe
        simp only [hxc, if_true, hcd, Option.getD_some]
        rw [← haid]
      · simp [hxc]
    rw [List.map_congr_left hfun, List.map_id']
  unfold updateCase
  rw [hok]
  simp only [if_true, hcases]

theorem syncStep_update (b : ClientBehavior) (cfg : SyncConfig) (sectionId : Option Nat)
    (reg : Registry) (m : String → Option Nat) (result : TestResult) (c : RegCase)
    (hfind : findCaseByAutomationId reg (syncAutomationId result) = some c)
    (hok : b.updateCaseOk c.id = true)
    (hnd : (reg.cases.map RegCase.id).Nodup) :
    syncStep b cfg sectionId (reg, m) result =
      (reg, dictSet m (syncAutomationId result) c.id) := by
  unfold syncStep
  simp only [hfind]
  rw [updateCase_found b reg c (syncAutomationId result) _ hfind rfl hnd hok]
  simp

theorem syncStep_create (b : ClientBehavior) (cfg : SyncConfig) (sectionId : Option Nat)
    (reg : Registry) (m : String → Option Nat) (result : TestResult)
    (hfind : findCaseByAutomationId reg (syncAutomationId result) = none)
    (hsec : pyOptIdTruthy sectionId = true)
    (hadd : b.addCaseOk (syncAutomationId result) = true) :
    syncStep b cfg sectionId (reg, m) result =
      ({ cases := reg.cases ++
            [{ id := reg.nextId, custom_automation_id := syncAutomationId result }],
         nextId := reg.nextId + 1 },
       dictSet m (syncAutomationId result) reg.nextId) := by
  have hu : ∀ (reg' : Registry) (caseId : Nat),
      (if updateFieldsNonempty cfg then (updateCase b reg' caseId (updateFieldsData cfg)).1
       else reg') = reg' := by
    intro reg' caseId
    cases hc : updateFieldsNonempty cfg
    · rfl
    · simp [updateCase_no_aid b reg' caseId (updateFieldsData cfg) rfl]
  unfold syncStep addCase
  simp only [hfind, hsec, if_true, buildCaseData, Option.getD_some, hadd, hu]

theorem syncStep_skip (b : ClientBehavior) (cfg : SyncConfig) (sectionId : Option Nat)
    (reg : Registry) (m : String → Option Nat) (result : TestResult)
    (hfind : findCaseByAutomationId reg (syncAutomationId result) = none)
    (h : pyOptIdTruthy sectionId = false ∨ b.addCaseOk (syncAutomationId result) = false) :
    syncStep b cfg sectionId (reg, m) result = (reg, m) := by
  unfold syncStep
  simp only [hfind]
  rcases h with h | h
  · simp [h]
  · cases hsec : pyOptIdTruthy sectionId
    · simp
    · simp [addCase, buildCaseData, h]

theorem findCase_append_some (reg : Registry) (x : RegCase) (n : Nat) (a : String)
    (c : RegCase) (h : findCaseByAutomationId reg a = some c) :
    findCaseByAutomationId { cases := reg.cases ++ [x], nextId := n } a = some c := by
  unfold findCaseByAutomationId getCases at h ⊢
  rw [List.find?_append, h]
  rfl

theorem findCase_append_self (reg : Registry) (n : Nat) (a : String)
    (h : findCaseByAutomationId reg a = none) :
    findCaseByAutomationId
      { cases := reg.cases ++ [{ id := reg.nextId, custom_automation_id := a }], nextId := n }
      a = some { id := reg.nextId, custom_automation_id := a } := by
  unfold findCaseByAutomationId getCases at h ⊢
  rw [List.find?_append, h]
  simp [List.find?]

theorem sync_run_establishes (cfg : SyncConfig) (sectionId : Option Nat)
    (hsec : pyOptIdTruthy sectionId = true) :
    ∀ (results : List TestResult) (reg : Registry) (m : String → Option Nat)
      (out : Registry × (String → Option Nat)),
      out = List.foldl (syncStep idealClient cfg sectionId) (reg, m) results →
      WellFormed reg →
      (∀ a i, m a = some i → ∃ c, findCaseByAutomationId reg a = some c ∧ c.id = i) →
      WellFormed out.1 ∧
      (∀ a c, findCaseByAutomationId reg a = some c → findCaseByAutomationId out.1 a = some c) ∧
      (∀ a i, out.2 a = some i → ∃ c, findCaseByAutomationId out.1 a = some c ∧ c.id = i) ∧
      (∀ a, m a ≠ none → out.2 a ≠ none) ∧
      (∀ r ∈ results, out.2 (syncAutomationId r) ≠ none) ∧
      (∀ a, out.2 a ≠ none → m a ≠ none ∨ a ∈ results.map syncAutomationId) := by
  intro results
  induction results with
  | nil =>
    intro reg m out hout hwf hbound
    rw [List.foldl_nil] at hout
    subst hout
    exact ⟨hwf, fun a c h => h, hbound, fun a h => h,
      fun r hr => absurd hr (List.not_mem_nil r), fun a h => Or.inl h⟩
  | cons r rs ih =>
    intro reg m out hout hwf hbound
    rw [List.foldl_cons] at hout
    cases hfind : findCaseByAutomationId reg (syncAutomationId r) with
    | some c =>
      rw [syncStep_update idealClient cfg sectionId reg m r c hfind rfl hwf.1] at hout
      have hbound' : ∀ a i, dictSet m (syncAutomationId r) c.id a = some i →
          ∃ c', findCaseByAutomationId reg a = some c' ∧ c'.id = i := by
        intro a i h
        unfold dictSet at h
        by_cases ha : a = syncAutomationId r
        · rw [if_pos ha] at h
          cases h
          rw [ha]
          exact ⟨c, hfind, rfl⟩
        · rw [if_neg ha] at h
          exact hbound a i h
      obtain ⟨hwf2, hpres2, hbound2, hmono2, hestab2, hdom2⟩ :=
        ih reg (dictSet m (syncAutomationId r) c.id) out hout hwf hbound'
      refine ⟨hwf2, hpres2, hbound2, ?_, ?_, ?_⟩
      · intro a h
        apply hmono2
        unfold dictSet
        by_cases ha : a = syncAutomationId r
        · rw [if_pos ha]; simp
        · rw [if_neg ha]; exact h
      · intro r' hr'
        rcases List.mem_cons.mp hr' with he | hm
        · subst he
          apply hmono2
          unfold dictSet
          rw [if_pos rfl]
          simp
        · exact hestab2 r' hm
      · intro a h
        rcases hdom2 a h with hx | hx
        · unfold dictSet at hx
          by_cases ha : a = syncAutomationId r
          · exact Or.inr (by rw [List.map_cons, ha]; exact List.mem_cons_self _ _)
          · rw [if_neg ha] at hx
            exact Or.inl hx
        · exact Or.inr (by rw [List.map_cons]; exact List.mem_cons_of_mem _ hx)
    | none =>
      rw [syncStep_create idealClient cfg sectionId reg m r hfind hsec rfl] at hout
      have hwfA : WellFormed
          { cases := reg.cases ++ [{ id := reg.nextId, custom_automation_id := syncAutomationId r }],
            nextId := reg.nextId + 1 } := by
        constructor
        · simp only [List.map_append, List.map_cons, List.map_nil]
          rw [List.nodup_append]
          refine ⟨hwf.1, List.nodup_singleton _, ?_⟩
          intro x hx hx2
          obtain ⟨cc, hcc, hccx⟩ := List.mem_map.mp hx
          have hlt := hwf.2 cc hcc
          have hxn : x = reg.nextId := by simpa using hx2
          omega
        · intro cc hcc
          rcases List.mem_append.mp hcc with hcc | hcc
          · exact Nat.lt_trans (hwf.2 cc hcc) (Nat.lt_succ_self _)
          · have hce : cc = { id := reg.nextId, custom_automation_id := syncAutomationId r } := by
              simpa using hcc
            rw [hce]
            exact Nat.lt_succ_self _
      have hpresA : ∀ a c', findCaseByAutomationId reg a = some c' →
          findCaseByAutomationId
            { cases := reg.cases ++ [{ id := reg.nextId, custom_automation_id := syncAutomationId r }],
              nextId := reg.nextId + 1 } a = some c' :=
        fun a c' h => findCase_append_some reg _ _ a c' h
      have hselfA : findCaseByAutomationId
          { cases := reg.cases ++ [{ id := reg.nextId, custom_automation_id := syncAutomationId r }],
            nextId := reg.nextId + 1 } (syncAutomationId r) =
          some { id := reg.nextId, custom_automation_id := syncAutomationId r } :=
        findCase_append_self reg _ _ hfind
      have hboundA : ∀ a i, dictSet m (syncAutomationId r) reg.nextId a = some i →
          ∃ c', findCaseByAutomationId
            { cases := reg.cases ++ [{ id := reg.nextId, custom_automation_id := syncAutomationId r }],
              nextId := reg.nextId + 1 } a = some c' ∧ c'.id = i := by
        intro a i h
        unfold dictSet at h
        by_cases ha : a = syncAutomationId r
        · rw [if_pos ha] at h
          cases h
          rw [ha]
          exact ⟨_, hselfA, rfl⟩
        · rw [if_neg ha] at h
          obtain ⟨c', hc', hci⟩ := hbound a i h
          exact ⟨c', hpresA a c' hc', hci⟩
      obtain ⟨hwf2, hpres2, hbound2, hmono2, hestab2, hdom2⟩ :=
        ih _ (dictSet m (syncAutomationId r) reg.nextId) out hout hwfA hboundA
      refine ⟨hwf2, ?_, hbound2, ?_, ?_, ?_⟩
      · intro a c' h
        exact hpres2 a c' (hpresA a c' h)
      · intro a h
        apply hmono2
        unfold dictSet
        by_cases ha : a = syncAutomationId r
        · rw [if_pos ha]; simp
        · rw [if_neg ha]; exact h
      · intro r' hr'
        rcases List.mem_cons.mp hr' with he | hm
        · subst he
          apply hmono2
          unfold dictSet
          rw [if_pos rfl]
          simp
        · exact hestab2 r' hm
      · intro a h
        rcases hdom2 a h with hx | hx
        · unfold dictSet at hx
          by_cases ha : a = syncAutomationId r
          · exact Or.inr (by rw [List.map_cons, ha]; exact List.mem_cons_self _ _)
          · rw [if_neg ha] at hx
            exact Or.inl hx
        · exact Or.inr (by rw [List.map_cons]; exact List.mem_cons_of_mem _ hx)

theorem sync_run_stable (cfg : SyncConfig) (sectionId : Option Nat) :
    ∀ (results : List TestResult) (reg : Registry) (m : String → Option Nat),
      WellFormed reg →
      (∀ r ∈ results, ∃ c, findCaseByAutomationId reg (syncAutomationId r) = some c) →
      List.foldl (syncStep idealClient cfg sectionId) (reg, m) results =
        (reg, fun a =>
          if a ∈ results.map syncAutomationId
          then (findCaseByAutomationId reg a).map RegCase.id
          else m a) := by
  intro results
  induction results with
  | nil =>
    intro reg m hwf hall
    rw [List.foldl_nil]
    refine Prod.ext rfl ?_
    funext a
    simp
  | cons r rs ih =>
    intro reg m hwf hall
    obtain ⟨c, hc⟩ := hall r (List.mem_cons_self r rs)
    rw [List.foldl_cons,
        syncStep_update idealClient cfg sectionId reg m r c hc rfl hwf.1,
        ih reg (dictSet m (syncAutomationId r) c.id) hwf
          (fun r' hr' => hall r' (List.mem_cons_of_mem r hr'))]
    refine Prod.ext rfl ?_
    funext a
    simp only [List.map_cons, List.mem_cons]
    by_cases hin : a ∈ List.map syncAutomationId rs
    · simp [hin]
    · by_cases ha : a = syncAutomationId r
      · simp [hin, ha, dictSet, hc]
      · simp [hin, ha, dictSet]

theorem sync_run_nocreate (cfg : SyncConfig) (sectionId : Option Nat)
    (hsec : pyOptIdTruthy sectionId = false) :
    ∀ (results : List TestResult) (reg : Registry) (m : String → Option Nat),
      WellFormed reg →
      (List.foldl (syncStep idealClient cfg sectionId) (reg, m) results).1 = reg := by
  intro results
  induction results with
  | nil =>
    intro reg m hwf
    rw [List.foldl_nil]
  | cons r rs ih =>
    intro reg m hwf
    rw [List.foldl_cons]
    cases hfind : findCaseByAutomationId reg (syncAutomationId r) with
    | some c =>
      rw [syncStep_update idealClient cfg sectionId reg m r c hfind rfl hwf.1]
      exact ih reg _ hwf
    | none =>
      rw [syncStep_skip idealClient cfg sectionId reg m r hfind (Or.inl hsec)]
      exact ih reg m hwf

/-! ### C1: idempotent reconciliation -/

/-- C1: with a well-formed registry (unique case ids, fresh id counter) and
every registry call succeeding, running `sync_cases_from_karate` twice with
the same Results leaves the registry of the first run untouched (zero new
cases — in fact no state change at all) and returns the same
`automation_id → case_id` map; moreover, whenever a truthy section id is
available, after the first run every lookup by the
`custom_automation_id` field finds a case, so the second run issues only
`update_case` calls. -/
theorem sync_idempotent_reconciliation (cfg : SyncConfig) (sections : List Nat)
    (reg : Registry) (results : List TestResult) (hwf : WellFormed reg) :
    (syncCasesFromKarate idealClient cfg sections
        (syncCasesFromKarate idealClient cfg sections reg results).1 results).1 =
      (syncCasesFromKarate idealClient cfg sections reg results).1 ∧
    (syncCasesFromKarate idealClient cfg sections
        (syncCasesFromKarate idealClient cfg sections reg results).1 results).2 =
      (syncCasesFromKarate idealClient cfg sections reg results).2 ∧
    (pyOptIdTruthy sections.head? = true →
      ∀ r ∈ results,
        (findCaseByAutomationId (syncCasesFromKarate idealClient cfg sections reg results).1
          (syncAutomationId r)).isSome = true) := by
  unfold syncCasesFromKarate
  cases hsec : pyOptIdTruthy sections.head? with
  | false =>
    have h1 : (List.foldl (syncStep idealClient cfg sections.head?) (reg, fun _ => none)
        results).1 = reg :=
      sync_run_nocreate cfg sections.head? hsec results reg _ hwf
    refine ⟨?_, ?_, ?_⟩
    · rw [h1]
      exact h1
    · rw [h1]
    · intro hcontra
      exact absurd hcontra (by simp)
  | true =>
    obtain ⟨hwf1, hpres1, hbound1, hmono1, hestab1, hdom1⟩ :=
      sync_run_establishes cfg sections.head? hsec results reg (fun _ => none)
        (List.foldl (syncStep idealClient cfg sections.head?) (reg, fun _ => none) results)
        rfl hwf (fun a i h => Option.noConfusion h)
    have hall : ∀ r ∈ results,
        ∃ c, findCaseByAutomationId
          (List.foldl (syncStep idealClient cfg sections.head?) (reg, fun _ => none) results).1
          (syncAutomationId r) = some c := by
      intro r hr
      have h := hestab1 r hr
      cases hm : (List.foldl (syncStep idealClient cfg sections.head?) (reg, fun _ => none)
          results).2 (syncAutomationId r) with
      | none => exact absurd hm h
      | some i =>
        obtain ⟨c, hc, _⟩ := hbound1 _ _ hm
        exact ⟨c, hc⟩
    have hrun2 := sync_run_stable cfg sections.head? results
      (List.foldl (syncStep idealClient cfg sections.head?) (reg, fun _ => none) results).1
      (fun _ => none) hwf1 hall
    refine ⟨?_, ?_, ?_⟩
    · rw [hrun2]
    · rw [hrun2]
      funext a
      by_cases ha : a ∈ results.map syncAutomationId
      · simp only [ha, if_true]
        obtain ⟨r, hr, hra⟩ := List.mem_map.mp ha
        have hne := hestab1 r hr
        rw [hra] at hne
        cases hm : (List.foldl (syncStep idealClient cfg sections.head?) (reg, fun _ => none)
            results).2 a with
        | none => exact absurd hm hne
        | some i =>
          obtain ⟨c, hc, hci⟩ := hbound1 a i hm
          rw [hc, Option.map_some', hci]
      · simp only [ha, if_false]
        cases hm : (List.foldl (syncStep idealClient cfg sections.head?) (reg, fun _ => none)
            results).2 a with
        | none => rfl
        | some i =>
          have hd := hdom1 a (by rw [hm]; exact fun hc => Option.noConfusion hc)
          rcases hd with hx | hx
          · exact absurd rfl hx
          · exact absurd hx ha
    · intro _ r hr
      obtain ⟨c, hc⟩ := hall r hr
      rw [hc]
      rfl

/-- C1 witness: both runs evaluated on a one-element Result list against the
empty well-formed registry with one section. -/
theorem sync_idempotent_reconciliation_witness :
    WellFormed { cases := [], nextId := 0 } ∧
    ((syncCasesFromKarate idealClient {} [1]
        (syncCasesFromKarate idealClient {} [1] { cases := [], nextId := 0 }
          [resultResolved]).1 [resultResolved]).1 =
      (syncCasesFromKarate idealClient {} [1] { cases := [], nextId := 0 }
        [resultResolved]).1 ∧
    (syncCasesFromKarate idealClient {} [1]
        (syncCasesFromKarate idealClient {} [1] { cases := [], nextId := 0 }
          [resultResolved]).1 [resultResolved]).2 =
      (syncCasesFromKarate idealClient {} [1] { cases := [], nextId := 0 }
        [resultResolved]).2 ∧
    (pyOptIdTruthy ([1] : List Nat).head? = true →
      ∀ r ∈ [resultResolved],
        (findCaseByAutomationId
          (syncCasesFromKarate idealClient {} [1] { cases := [], nextId := 0 }
            [resultResolved]).1 (syncAutomationId r)).isSome = true)) :=
  ⟨⟨List.nodup_nil, fun c hc => absurd hc (List.not_mem_nil c)⟩,
    sync_idempotent_reconciliation {} [1] { cases := [], nextId := 0 } [resultResolved]
      ⟨List.nodup_nil, fun c hc => absurd hc (List.not_mem_nil c)⟩⟩

/-! ### C6: partial-failure continuation in sync -/

/-- C6: a Result whose registry operation fails at its point in the loop is
skipped without disturbing the rest: removing it from the list leaves the
sync outcome unchanged; and concretely, for three Results with distinct
automation ids where only the second one's case creation fails, the first
and third are created (with consecutive fresh ids) and appear in the
returned map while the second does not. -/
theorem sync_partial_failure_continuation :
    (∀ (b : ClientBehavior) (cfg : SyncConfig) (sections : List Nat) (reg : Registry)
       (pre post : List TestResult) (r : TestResult),
       syncStep b cfg sections.head? (syncCasesFromKarate b cfg sections reg pre) r =
         syncCasesFromKarate b cfg sections reg pre →
       syncCasesFromKarate b cfg sections reg (pre ++ r :: post) =
         syncCasesFromKarate b cfg sections reg (pre ++ post)) ∧
    (∀ (r1 r2 r3 : TestResult) (cfg : SyncConfig) (n s : Nat), s ≠ 0 →
       syncAutomationId r1 ≠ syncAutomationId r2 →
       syncAutomationId r1 ≠ syncAutomationId r3 →
       syncAutomationId r2 ≠ syncAutomationId r3 →
       ((syncCasesFromKarate (failAddFor (syncAutomationId r2)) cfg [s]
            { cases := [], nextId := n } [r1, r2, r3]).2 (syncAutomationId r1) = some n ∧
        (syncCasesFromKarate (failAddFor (syncAutomationId r2)) cfg [s]
            { cases := [], nextId := n } [r1, r2, r3]).2 (syncAutomationId r2) = none ∧
        (syncCasesFromKarate (failAddFor (syncAutomationId r2)) cfg [s]
            { cases := [], nextId := n } [r1, r2, r3]).2 (syncAutomationId r3) = some (n + 1) ∧
        ((syncCasesFromKarate (failAddFor (syncAutomationId r2)) cfg [s]
            { cases := [], nextId := n } [r1, r2, r3]).1.cases.map
              (fun c => c.custom_automation_id)) =
          [syncAutomationId r1, syncAutomationId r3])) := by
  constructor
  · intro b cfg sections reg pre post r h
    unfold syncCasesFromKarate at h ⊢
    rw [List.foldl_append, List.foldl_append, List.foldl_cons, h]
  · intro r1 r2 r3 cfg n s hs h12 h13 h23
    have hsec : pyOptIdTruthy (([s] : List Nat)).head? = true := by
      show pyOptIdTruthy (some s) = true
      simp [pyOptIdTruthy]
      exact hs
    have hf1 : findCaseByAutomationId { cases := [], nextId := n } (syncAutomationId r1) =
        none := rfl
    have hadd1 : (failAddFor (syncAutomationId r2)).addCaseOk (syncAutomationId r1) = true := by
      show (syncAutomationId r1 != syncAutomationId r2) = true
      exact bne_iff_ne.mpr h12
    have hf2 : findCaseByAutomationId
        { cases := [] ++ [{ id := n, custom_automation_id := syncAutomationId r1 }],
          nextId := n + 1 } (syncAutomationId r2) = none := by
      unfold findCaseByAutomationId getCases
      simp [List.find?, beq_eq_false_iff_ne.mpr h12]
    have hadd2 : (failAddFor (syncAutomationId r2)).addCaseOk (syncAutomationId r2) = false := by
      show (syncAutomationId r2 != syncAutomationId r2) = false
      simp
    have hf3 : findCaseByAutomationId
        { cases := [] ++ [{ id := n, custom_automation_id := syncAutomationId r1 }],
          nextId := n + 1 } (syncAutomationId r3) = none := by
      unfold findCaseByAutomationId getCases
      simp [List.find?, beq_eq_false_iff_ne.mpr h13]
    have hadd3 : (failAddFor (syncAutomationId r2)).addCaseOk (syncAutomationId r3) = true := by
      show (syncAutomationId r3 != syncAutomationId r2) = true
      exact bne_iff_ne.mpr (Ne.symm h23)
    have hfold : syncCasesFromKarate (failAddFor (syncAutomationId r2)) cfg [s]
        { cases := [], nextId := n } [r1, r2, r3] =
        ({ cases := ([] ++ [{ id := n, custom_automation_id := syncAutomationId r1 }]) ++
              [{ id := n + 1, custom_automation_id := syncAutomationId r3 }],
           nextId := n + 1 + 1 },
         dictSet (dictSet (fun _ => none) (syncAutomationId r1) n) (syncAutomationId r3)
           (n + 1)) := by
      unfold syncCasesFromKarate
      rw [List.foldl_cons, List.foldl_cons, List.foldl_cons, List.foldl_nil,
          syncStep_create (failAddFor (syncAutomationId r2)) cfg (([s] : List Nat)).head?
            { cases := [], nextId := n } (fun _ => none) r1 hf1 hsec hadd1,
          syncStep_skip (failAddFor (syncAutomationId r2)) cfg (([s] : List Nat)).head? _ _ r2
            hf2 (Or.inr hadd2),
          syncStep_create (failAddFor (syncAutomationId r2)) cfg (([s] : List Nat)).head? _ _ r3
            hf3 hsec hadd3]
    rw [hfold]
    refine ⟨?_, ?_, ?_, ?_⟩
    · show dictSet (dictSet (fun _ => none) (syncAutomationId r1) n) (syncAutomationId r3)
        (n + 1) (syncAutomationId r1) = some n
      unfold dictSet
      rw [if_neg h13, if_pos rfl]
    · show dictSet (dictSet (fun _ => none) (syncAutomationId r1) n) (syncAutomationId r3)
        (n + 1) (syncAutomationId r2) = none
      unfold dictSet
      rw [if_neg h23, if_neg (Ne.symm h12)]
    · show dictSet (dictSet (fun _ => none) (syncAutomationId r1) n) (syncAutomationId r3)
        (n + 1) (syncAutomationId r3) = some (n + 1)
      unfold dictSet
      rw [if_pos rfl]
    · simp

/-- C6 witness: three concrete summary-mode Results where only the middle
one's creation fails. -/
theorem sync_partial_failure_continuation_witness :
    (syncCasesFromKarate (failAddFor (syncAutomationId resultB)) {} [1]
        { cases := [], nextId := 0 } [resultA, resultB, resultC]).2
      (syncAutomationId resultA) = some 0 ∧
    (syncCasesFromKarate (failAddFor (syncAutomationId resultB)) {} [1]
        { cases := [], nextId := 0 } [resultA, resultB, resultC]).2
      (syncAutomationId resultB) = none ∧
    (syncCasesFromKarate (failAddFor (syncAutomationId resultB)) {} [1]
        { cases := [], nextId := 0 } [resultA, resultB, resultC]).2
      (syncAutomationId resultC) = some 1 :=
  ⟨(sync_partial_failure_continuation.2 resultA resultB resultC {} 0 1 (by decide) (by decide)
      (by decide) (by decide)).1,
   (sync_partial_failure_continuation.2 resultA resultB resultC {} 0 1 (by decide) (by decide)
      (by decide) (by decide)).2.1,
   (sync_partial_failure_continuation.2 resultA resultB resultC {} 0 1 (by decide) (by decide)
      (by decide) (by decide)).2.2.1⟩

/-! ### C2: identity stability -/

/-- C2 (counterexample): the claim that the automation identifier equals
`feature + "." + scenario` whenever feature and scenario differ is false:
for the Result `{feature := "Posts", scenario := "Get by id.v2"}` the sync
logic truncates the scenario at its first dot and produces
`"Posts.Get by id"`, not `"Posts.Get by id.v2"`. -/
theorem identity_concatenation_counterexample :
    resultDottedScenario.feature ≠ resultDottedScenario.scenario ∧
    syncAutomationId resultDottedScenario = "Posts.Get by id" ∧
    syncAutomationId resultDottedScenario ≠
      resultDottedScenario.feature ++ "." ++ resultDottedScenario.scenario := by
  decide

/-- C2 (amended): the Runner recomputes exactly the Synchronizer's
automation identifier; a Result with `feature = scenario` gets the bare
feature as its id; a Result with distinct feature and scenario gets
`feature + "." + scenario-truncated-at-its-first-dot`. -/
theorem identity_stability_amended (r : TestResult) :
    runnerAutomationId r = syncAutomationId r ∧
    (r.feature = r.scenario → syncAutomationId r = r.feature) ∧
    (r.feature ≠ r.scenario →
      syncAutomationId r =
        r.feature ++ "." ++ String.mk (r.scenario.toList.takeWhile fun c => c ≠ '.')) := by
  refine ⟨rfl, fun h => ?_, fun h => ?_⟩
  · simp [syncAutomationId, h]
  · have hb : (r.feature == r.scenario) = false := beq_eq_false_iff_ne.mpr h
    simp [syncAutomationId, hb, pySplitDotFirst_eq_takeWhile]

/-- C2 witness: the amended identity rule evaluated on a concrete Result
with distinct feature and scenario. -/
theorem identity_stability_amended_witness :
    resultResolved.feature ≠ resultResolved.scenario ∧
    runnerAutomationId resultResolved = syncAutomationId resultResolved ∧
    syncAutomationId resultResolved =
      resultResolved.feature ++ "." ++
        String.mk (resultResolved.scenario.toList.takeWhile fun c => c ≠ '.') :=
  ⟨by decide, (identity_stability_amended resultResolved).1,
    (identity_stability_amended resultResolved).2.2 (by decide)⟩

/-! ### C4: status mapping -/

/-- C4: the Runner's status translation is total and fixed:
`passed → 1`, `failed → 5`, and every other status string (including
`skipped`) maps to `3`.  It is a pure Lean function of the status string
alone — no registry calls, no side effects. -/
theorem status_mapping_total :
    statusToRegistryCode "passed" = 1 ∧ statusToRegistryCode "failed" = 5 ∧
    ∀ status : String, status ≠ "passed" → status ≠ "failed" →
      statusToRegistryCode status = 3 := by
  refine ⟨rfl, rfl, fun status h1 h2 => ?_⟩
  simp [statusToRegistryCode, h1, h2]

/-- C4 witness: the catch-all case evaluated at `"skipped"`. -/
theorem status_mapping_total_witness : statusToRegistryCode "skipped" = 3 :=
  status_mapping_total.2.2 "skipped" (by decide) (by decide)

/-! ### C8: priority inference -/

/-- C8: the priority classifier over the combined lowercased scenario and
feature text: a critical keyword forces 5; otherwise a high keyword forces
4; otherwise a low keyword forces 2; otherwise 3.  As a Lean function it is
deterministic and depends only on the single Result's text. -/
theorem infer_priority_classifier (r : TestResult) :
    ((∃ k ∈ (["critical", "smoke", "p0", "blocker", "security"] : List String),
        pyStrIn k (pyLower r.scenario ++ pyLower r.feature) = true) →
      inferPriority r = 5) ∧
    (¬(∃ k ∈ (["critical", "smoke", "p0", "blocker", "security"] : List String),
        pyStrIn k (pyLower r.scenario ++ pyLower r.feature) = true) →
      (∃ k ∈ (["important", "main", "core", "p1", "auth"] : List String),
        pyStrIn k (pyLower r.scenario ++ pyLower r.feature) = true) →
      inferPriority r = 4) ∧
    (¬(∃ k ∈ (["critical", "smoke", "p0", "blocker", "security"] : List String),
        pyStrIn k (pyLower r.scenario ++ pyLower r.feature) = true) →
      ¬(∃ k ∈ (["important", "main", "core", "p1", "auth"] : List String),
        pyStrIn k (pyLower r.scenario ++ pyLower r.feature) = true) →
      (∃ k ∈ (["edge", "negative", "error", "p3", "optional"] : List String),
        pyStrIn k (pyLower r.scenario ++ pyLower r.feature) = true) →
      inferPriority r = 2) ∧
    (¬(∃ k ∈ (["critical", "smoke", "p0", "blocker", "security"] : List String),
        pyStrIn k (pyLower r.scenario ++ pyLower r.feature) = true) →
      ¬(∃ k ∈ (["important", "main", "core", "p1", "auth"] : List String),
        pyStrIn k (pyLower r.scenario ++ pyLower r.feature) = true) →
      ¬(∃ k ∈ (["edge", "negative", "error", "p3", "optional"] : List String),
        pyStrIn k (pyLower r.scenario ++ pyLower r.feature) = true) →
      inferPriority r = 3) := by
  refine ⟨fun h1 => ?_, fun h1 h2 => ?_, fun h1 h2 h3 => ?_, fun h1 h2 h3 => ?_⟩
  · have hb1 := List.any_eq_true.mpr h1
    simp [inferPriority, hb1]
  · have hb1 : (List.any ["critical", "smoke", "p0", "blocker", "security"]
        fun x => pyStrIn x (pyLower r.scenario ++ pyLower r.feature)) = false :=
      Bool.eq_false_iff.mpr fun hc => h1 (List.any_eq_true.mp hc)
    have hb2 := List.any_eq_true.mpr h2
    simp [inferPriority, hb1, hb2]
  · have hb1 : (List.any ["critical", "smoke", "p0", "blocker", "security"]
        fun x => pyStrIn x (pyLower r.scenario ++ pyLower r.feature)) = false :=
      Bool.eq_false_iff.mpr fun hc => h1 (List.any_eq_true.mp hc)
    have hb2 : (List.any ["important", "main", "core", "p1", "auth"]
        fun x => pyStrIn x (pyLower r.scenario ++ pyLower r.feature)) = false :=
      Bool.eq_false_iff.mpr fun hc => h2 (List.any_eq_true.mp hc)
    have hb3 := List.any_eq_true.mpr h3
    simp [inferPriority, hb1, hb2, hb3]
  · have hb1 : (List.any ["critical", "smoke", "p0", "blocker", "security"]
        fun x => pyStrIn x (pyLower r.scenario ++ pyLower r.feature)) = false :=
      Bool.eq_false_iff.mpr fun hc => h1 (List.any_eq_true.mp hc)
    have hb2 : (List.any ["important", "main", "core", "p1", "auth"]
        fun x => pyStrIn x (pyLower r.scenario ++ pyLower r.feature)) = false :=
      Bool.eq_false_iff.mpr fun hc => h2 (List.any_eq_true.mp hc)
    have hb3 : (List.any ["edge", "negative", "error", "p3", "optional"]
        fun x => pyStrIn x (pyLower r.scenario ++ pyLower r.feature)) = false :=
      Bool.eq_false_iff.mpr fun hc => h3 (List.any_eq_true.mp hc)
    simp [inferPriority, hb1, hb2, hb3]

/-- C8 witness: a Result whose scenario text contains `smoke` is classified
as priority 5. -/
theorem infer_priority_classifier_witness : inferPriority resultSmoke = 5 :=
  (infer_priority_classifier resultSmoke).1 ⟨"smoke", by decide, by decide⟩

/-! ### C10: empty-batch submission -/

/-- C10: `submit_results` returns `True` exactly when the built batch
payload is non-empty and the single `add_results` batch call succeeded; in
particular an empty input list returns `False` even though no remote error
occurred. -/
theorem submit_results_empty_batch (testsInRun : List RunTest)
    (caseIdMap : String → Option Nat) (testResults : List TestResult) (batchOk : Bool) :
    (submitResults testsInRun testResults caseIdMap batchOk = true ↔
      buildResultsPayload (buildTestIdMap testsInRun) caseIdMap testResults ≠ [] ∧
        batchOk = true) ∧
    submitResults testsInRun [] caseIdMap batchOk = false := by
  constructor
  · unfold submitResults
    cases hp : buildResultsPayload (buildTestIdMap testsInRun) caseIdMap testResults with
    | nil => simp [hp]
    | cons x xs => cases batchOk <;> simp [hp]
  · simp [submitResults, buildResultsPayload]

/-- C10 witness: the empty input list evaluated against a concrete run and
map, with a succeeding batch oracle. -/
theorem submit_results_empty_batch_witness :
    submitResults sampleRunTests [] sampleCaseIdMap true = false :=
  (submit_results_empty_batch sampleRunTests sampleCaseIdMap [] true).2

/-! ### C7: runner skip-on-unresolved -/

/-- C7: a Result whose automation id has no entry in the case-id map, or
whose case id has no run-scoped test in the run's test listing, contributes
nothing to the batch payload: removing it leaves the payload (and the whole
submission outcome) of the remaining Results unchanged. -/
theorem runner_skip_unresolved (testsInRun : List RunTest)
    (caseIdMap : String → Option Nat) (pre post : List TestResult) (result : TestResult)
    (h : caseIdMap (runnerAutomationId result) = none ∨
         ∃ caseId, caseIdMap (runnerAutomationId result) = some caseId ∧
           buildTestIdMap testsInRun caseId = none) :
    buildResultsPayload (buildTestIdMap testsInRun) caseIdMap (pre ++ result :: post) =
      buildResultsPayload (buildTestIdMap testsInRun) caseIdMap (pre ++ post) ∧
    ∀ batchOk, submitResults testsInRun (pre ++ result :: post) caseIdMap batchOk =
      submitResults testsInRun (pre ++ post) caseIdMap batchOk := by
  have key : buildResultsPayload (buildTestIdMap testsInRun) caseIdMap (pre ++ result :: post) =
      buildResultsPayload (buildTestIdMap testsInRun) caseIdMap (pre ++ post) := by
    induction pre with
    | nil =>
      simp only [List.nil_append]
      rcases h with h | ⟨caseId, hc, ht⟩
      · simp [buildResultsPayload, h]
      · cases hb : (caseId != 0) <;> simp [buildResultsPayload, hc, ht, hb]
    | cons a pre ih =>
      simp only [List.cons_append, buildResultsPayload, List.append_eq, ih]
  exact ⟨key, fun batchOk => by simp [submitResults, key]⟩

/-- C7 witness: a resolved Result followed by an unresolved one produces the
same payload as the resolved Result alone. -/
theorem runner_skip_unresolved_witness :
    sampleCaseIdMap (runnerAutomationId resultUnresolved) = none ∧
    buildResultsPayload (buildTestIdMap sampleRunTests) sampleCaseIdMap
        ([resultResolved] ++ resultUnresolved :: []) =
      buildResultsPayload (buildTestIdMap sampleRunTests) sampleCaseIdMap
        ([resultResolved] ++ []) :=
  ⟨by decide,
    (runner_skip_unresolved sampleRunTests sampleCaseIdMap [resultResolved] []
      resultUnresolved (Or.inl (by decide))).1⟩

/-! ### C5: graceful degradation -/

/-- C5: a document with an unrecognized top-level shape (no
`scenarioResults`, no feature/elements list, no `featureSummary`) parses to
the empty Result list; and whenever the parse body raises internally, the
caught exception still yields the salvaged Result list rather than a thrown
error. -/
theorem graceful_degradation :
    (∀ doc : KJson, unrecognizedShape doc = true → parseKarateJson doc = []) ∧
    (∀ (doc : KJson) (e : PyErr), (parseAttempt doc).2 = some e →
      parseKarateJson doc = (parseAttempt doc).1) := by
  constructor
  · intro doc h
    cases doc with
    | null => rfl
    | bool b => cases b with | false => rfl | true => rfl
    | num q =>
      by_cases hq : KJson.pyTruthy (.num q) = true
      · simp [parseKarateJson, parseAttempt, hq, featuresValue, runSummary, KJson.isObj,
              KJson.pyTruthy]
      · simp only [Bool.not_eq_true] at hq
        simp [parseKarateJson, parseAttempt, hq]
    | str s =>
      by_cases hq : KJson.pyTruthy (.str s) = true
      · simp [parseKarateJson, parseAttempt, hq, featuresValue, runSummary, KJson.isObj,
              KJson.pyTruthy]
      · simp only [Bool.not_eq_true] at hq
        simp [parseKarateJson, parseAttempt, hq]
    | arr xs => simp [unrecognizedShape] at h
    | obj fields =>
      simp only [unrecognizedShape, Bool.not_eq_true', Bool.or_eq_false_iff] at h
      obtain ⟨⟨⟨h1, h2⟩, h3⟩, h4⟩ := h
      by_cases hq : KJson.pyTruthy (.obj fields) = true
      · simp [parseKarateJson, parseAttempt, hq, featuresValue, runSummary, KJson.isObj,
              KJson.pyTruthy, h1, h2, h3, h4]
      · simp only [Bool.not_eq_true] at hq
        simp [parseKarateJson, parseAttempt, hq]
  · intro doc e _
    rfl

/-- C5 witness: a concrete unknown-shape document parses to the empty
list. -/
theorem graceful_degradation_witness : parseKarateJson docUnknownShape = [] :=
  graceful_degradation.1 docUnknownShape rfl

/-! ### C3: parser format priority -/

/-- C3 (counterexample): a document holding both a `scenarioResults` array
and a `featureSummary` block is NOT always parsed from the detailed format:
when the `scenarioResults` array yields no Results (here it is empty), the
parser falls through and produces the `featureSummary` Result instead of
ignoring it. -/
theorem format_priority_counterexample :
    KJson.hasKey docEmptyDetailedWithSummary "scenarioResults" = true ∧
    KJson.hasKey docEmptyDetailedWithSummary "featureSummary" = true ∧
    (parseKarateJson docEmptyDetailedWithSummary).map
        (fun r => (r.feature, r.scenario, r.status)) = [("Posts", "Posts", "passed")] :=
  ⟨rfl, rfl, rfl⟩

/-- C3 (amended): for a document with a `scenarioResults` key, whenever the
detailed branch yields at least one Result, the parser returns exactly
those Results and every other block (`featureSummary` included) is
ignored. -/
theorem format_priority_detailed_first (doc : KJson)
    (hsr : doc.hasKey "scenarioResults" = true)
    (hne : detailedResults doc ≠ []) :
    parseKarateJson doc = detailedResults doc := by
  cases doc with
  | obj fields =>
    have hfne : fields.isEmpty = false := by
      cases fields with
      | nil => simp [KJson.hasKey, KJson.kget, KJson.assocGet] at hsr
      | cons a l => rfl
    have htr : KJson.pyTruthy (.obj fields) = true := by simp [KJson.pyTruthy, hfne]
    have hie : (detailedResults (.obj fields)).isEmpty = false := by
      cases hd : detailedResults (.obj fields) with
      | nil => exact absurd hd hne
      | cons a l => rfl
    simp [parseKarateJson, parseAttempt, htr, KJson.isObj, hsr, hie]
  | null => simp [KJson.hasKey, KJson.kget] at hsr
  | bool b => simp [KJson.hasKey, KJson.kget] at hsr
  | num q => simp [KJson.hasKey, KJson.kget] at hsr
  | str s => simp [KJson.hasKey, KJson.kget] at hsr
  | arr xs => simp [KJson.hasKey, KJson.kget] at hsr

/-- C3 witness: a document with a non-empty `scenarioResults` array and a
`featureSummary` block is parsed from the detailed branch alone. -/
theorem format_priority_detailed_first_witness :
    KJson.hasKey docDetailedWithSummary "featureSummary" = true ∧
    detailedResults docDetailedWithSummary ≠ [] ∧
    parseKarateJson docDetailedWithSummary = detailedResults docDetailedWithSummary := by
  have hne : detailedResults docDetailedWithSummary ≠ [] := by
    intro hcontra
    have hlen := congrArg List.length hcontra
    exact absurd hlen (by decide)
  exact ⟨rfl, hne, format_priority_detailed_first docDetailedWithSummary rfl hne⟩

/-! ### C9: parser status handling of explicit scenario statuses -/

/-- C9 (code bug): in the feature/elements format, a scenario carrying an
explicit status (here `skipped`) is NOT mapped to a `failed` Result: the
local variable `steps` is only assigned inside the `if not scenario_status:`
branch (`karate_parser.py` line 307), so the `isinstance(steps, list)` test
at line 318 raises `UnboundLocalError`, the feature parse aborts, and the
top-level handler returns no Result at all for the document. -/
theorem feature_status_unbound_local :
    parseFeatureData docExplicitStatus = .error .unboundLocalError ∧
    (parseAttempt docExplicitStatus).2 = some .unboundLocalError ∧
    parseKarateJson docExplicitStatus = [] :=
  ⟨rfl, rfl, rfl⟩

end AgentKarate
